import Mathlib

/-!
Shallow embedding of the request-handling core of the ewastepas courier
backend (src/controllers/wasteController.js): response envelopes, the
validation helpers, the error-mapping wrapper, the four endpoint handlers
and the ephemeral cache decorator.  JavaScript numbers that can be NaN are
modelled as Option Int (none = NaN); the persistence collaborator (prisma)
is modelled as explicit list queries, and a handler receives the outcome
of its collaborator call as an Except value.
-/

/-- Raw JavaScript input value as it arrives from the transport layer:
a query/params entry is a string, a number, or undefined. -/
inductive JsIn where
  | undef
  | num (n : Int)
  | str (s : String)

/-- Digits of a decimal prefix folded to a natural number. -/
def parseDigitsNat (cs : List Char) : Option Nat :=
  let ds := cs.takeWhile Char.isDigit
  if ds.isEmpty then none
  else some (ds.foldl (fun a c => a * 10 + (c.toNat - 48)) 0)

/-- Optional sign followed by a decimal digit run, as JavaScript parseInt
reads it after whitespace skipping; none models NaN. -/
def parseSignedDigits (cs : List Char) : Option Int :=
  match cs with
  | [] => none
  | c :: rest =>
    if c = '-' then (parseDigitsNat rest).map (fun n => -(n : Int))
    else if c = '+' then (parseDigitsNat rest).map (fun n => (n : Int))
    else (parseDigitsNat (c :: rest)).map (fun n => (n : Int))

/-- JavaScript parseInt(x, 10): skips leading whitespace, reads an optional
sign and a decimal digit run; yields NaN (none) when no digits are found.
A number argument is converted via its decimal string, which for the
integers modelled here is the identity; undefined stringifies to a
non-numeric word and parses to NaN. -/
def parseIntJs : JsIn → Option Int
  | .undef => none
  | .num n => some n
  | .str s => parseSignedDigits (s.toList.dropWhile Char.isWhitespace)

/-- Default-parameter application: a JS default value replaces only an
undefined argument. -/
def jsDefault (x : JsIn) (d : Int) : JsIn :=
  match x with
  | .undef => .num d
  | y => y

/-- Math.max with a constant first argument; NaN (none) propagates. -/
def jsMax (c : Int) (o : Option Int) : Option Int :=
  o.map (fun x => max c x)

/-- Math.min with a constant first argument; NaN (none) propagates. -/
def jsMin (c : Int) (o : Option Int) : Option Int :=
  o.map (fun x => min c x)

/-- Subtraction of a constant; NaN (none) propagates. -/
def jsSub (o : Option Int) (c : Int) : Option Int :=
  o.map (fun x => x - c)

/-- Multiplication; NaN (none) propagates. -/
def jsMul (a b : Option Int) : Option Int :=
  match a, b with
  | some x, some y => some (x * y)
  | _, _ => none

/-- JSON value written onto the HTTP response.  NaN serialises to null, so
an Option Int field is rendered through numOrNull below. -/
inductive JVal where
  | null
  | bool (b : Bool)
  | num (n : Int)
  | str (s : String)
  | arr (xs : List JVal)
  | obj (fields : List (String × JVal))

/-- JSON rendering of a possibly-NaN number: JSON.stringify turns NaN and
infinities into null. -/
def numOrNull : Option Int → JVal
  | some n => .num n
  | none => .null

/-- JavaScript String.prototype.trim: strip leading and trailing
whitespace. -/
def jsTrim (s : String) : String :=
  String.mk (((s.toList.dropWhile Char.isWhitespace).reverse.dropWhile Char.isWhitespace).reverse)

/-- JavaScript truthiness on the modelled JSON values. -/
def jsTruthy : JVal → Bool
  | .null => false
  | .bool b => b
  | .num n => n != 0
  | .str s => !s.isEmpty
  | .arr _ => true
  | .obj _ => true

/-- Thrown/rejected JS error object as the wrapper inspects it: message,
and the ad hoc optional status and code fields. -/
structure JsError where
  message : String
  status : Option Int
  code : Option String

/-- Response written to the transport collaborator: numeric status plus a
JSON body. -/
structure HttpResponse where
  status : Int
  body : JVal

/-- ApiResponse.success(data, message, meta): the success envelope. -/
def ApiResponse.success (data : JVal) (message : String) (meta : List (String × JVal)) : JVal :=
  .obj ([("success", JVal.bool true), ("message", JVal.str message), ("data", data)] ++ meta)

/-- ApiResponse.error(message, status, details): the error envelope. -/
def ApiResponse.error (message : String) (status : Int) (details : List (String × JVal)) : JVal :=
  .obj ([("success", JVal.bool false), ("message", JVal.str message), ("status", JVal.num status)] ++ details)

/-- Pagination spec returned by validatePagination; each field is a JS
number, hence possibly NaN (none). -/
structure PaginationSpec where
  page : Option Int
  limit : Option Int
  skip : Option Int

/-- ValidationHelpers.validatePagination(page = 1, limit = 10): parseInt
both inputs, clamp page with Math.max(1, _) and limit with
Math.min(100, Math.max(1, _)), and derive skip = (page - 1) * limit. -/
def ValidationHelpers.validatePagination (page limit : JsIn) : PaginationSpec :=
  let parsedPage := jsMax 1 (parseIntJs (jsDefault page 1))
  let parsedLimit := jsMin 100 (jsMax 1 (parseIntJs (jsDefault limit 10)))
  { page := parsedPage
    limit := parsedLimit
    skip := jsMul (jsSub parsedPage 1) parsedLimit }

/-- ValidationHelpers.validateId(id, entityName): parseInt the input and
reject NaN or non-positive values with an Error whose message embeds the
entity name. -/
def ValidationHelpers.validateId (id : JsIn) (entityName : String) : Except String Int :=
  match parseIntJs id with
  | none => .error ("Invalid " ++ entityName ++ " provided")
  | some parsed =>
    if parsed ≤ 0 then .error ("Invalid " ++ entityName ++ " provided")
    else .ok parsed

/-- asyncHandler: runs the wrapped handler and, on any thrown or rejected
failure, maps it to status = error.status when truthy, else 404 when
error.code is the prisma record-not-found sentinel P2025, else 500, and
writes an error envelope carrying the request path.  The handler outcome
is passed in as an Except value; the logging side effect goes to the
observability collaborator and has no bearing on the response. -/
def asyncHandler (result : Except JsError HttpResponse) (path : String) : HttpResponse :=
  match result with
  | .ok r => r
  | .error e =>
    let fallback : Int := if e.code = some "P2025" then 404 else 500
    let status : Int :=
      match e.status with
      | some s => if s = 0 then fallback else s
      | none => fallback
    let msg : String := if e.message = "" then "An unexpected error occurred" else e.message
    { status := status
      body := ApiResponse.error msg status [("path", JVal.str path)] }

/-- Spec-side notion of a well-formed pagination spec, following the spec
words: integer page at least 1, integer limit in [1,100], and skip equal
to (page - 1) * limit. -/
def paginationWellFormed (r : PaginationSpec) : Bool :=
  match r.page, r.limit, r.skip with
  | some p, some l, some s =>
    decide (1 ≤ p) && decide (1 ≤ l) && decide (l ≤ 100) && (s == (p - 1) * l)
  | _, _, _ => false

/-- Spec-side status mapping, following the spec words for the wrapper:
the failure declared status whenever it is present, else the sentinel
mapping.  The code differs: it tests truthiness, not presence. -/
def specDeclaredStatus (e : JsError) : Int :=
  match e.status with
  | some s => s
  | none => if e.code = some "P2025" then 404 else 500

/-- Waste row as the WASTE_SELECT projection sees it. -/
structure Waste where
  waste_id : Int
  waste_name : String
  image : String
  description : String
  waste_type_id : Int

/-- JSON object produced for a waste row under WASTE_SELECT. -/
def wasteToJVal (w : Waste) : JVal :=
  .obj [("waste_id", JVal.num w.waste_id),
        ("waste_name", JVal.str w.waste_name),
        ("image", JVal.str w.image),
        ("description", JVal.str w.description),
        ("waste_type_id", JVal.num w.waste_type_id)]

/-- Boolean order on character lists used to model the collaborator
name-ascending ordering. -/
def charsLe : List Char → List Char → Bool
  | [], _ => true
  | _ :: _, [] => false
  | a :: as, b :: bs =>
    if a = b then charsLe as bs else decide (a.toNat < b.toNat)

/-- Lexicographic string order backing orderBy waste_name asc. -/
def strLeB (a b : String) : Bool :=
  charsLe a.toList b.toList

/-- Insertion step of the name-ascending ordering. -/
def insertByName (w : Waste) : List Waste → List Waste
  | [] => [w]
  | x :: xs => if strLeB w.waste_name x.waste_name then w :: x :: xs else x :: insertByName w xs

/-- Model of orderBy { waste_name : asc } on a result set. -/
def sortByName : List Waste → List Waste
  | [] => []
  | x :: xs => insertByName x (sortByName xs)

/-- Substring test on character lists: the needle occurs somewhere in the
haystack. -/
def charsContains (needle : List Char) : List Char → Bool
  | [] => needle.isEmpty
  | c :: t => needle.isPrefixOf (c :: t) || charsContains needle t

/-- Case-insensitive contains, modelling { contains, mode : insensitive }. -/
def strContainsCI (hay needle : String) : Bool :=
  charsContains needle.toLower.toList hay.toLower.toList

/-- Row predicate for an optional waste_name contains filter; an absent
where clause accepts every row. -/
def matchesWhere (w? : Option String) (w : Waste) : Bool :=
  match w? with
  | none => true
  | some pat => strContainsCI w.waste_name pat

/-- The where clause built by getWasteLists from the search query
parameter: trim it, and drop it entirely when absent or trimmed empty
(the JS truthiness test on the trimmed string). -/
def wasteListsWhere (searchQ : Option String) : Option String :=
  match searchQ.map jsTrim with
  | some t => if t = "" then none else some t
  | none => none

/-- prisma.waste.findMany with where, orderBy waste_name asc, skip and
take, over a modelled table. -/
def prismaWasteFindMany (db : List Waste) (w? : Option String) (skip take : Nat) : List Waste :=
  (((sortByName (db.filter (matchesWhere w?)))).drop skip).take take

/-- prisma.waste.count with the same where clause. -/
def prismaWasteCount (db : List Waste) (w? : Option String) : Nat :=
  (db.filter (matchesWhere w?)).length

/-- prisma.waste.findMany for findWasteName: contains filter on the
trimmed name, name-ascending, capped by take 50. -/
def prismaFindWasteByName (db : List Waste) (name : String) : List Waste :=
  (sortByName (db.filter (fun w => strContainsCI w.waste_name name))).take 50

/-- Handler body of getAllWasteTypes: the collaborator outcome is the
(projected) waste_type rows; zero rows yield the 404 envelope, otherwise
the rows are wrapped in a success envelope. -/
def getAllWasteTypesHandler (dbres : Except JsError (List JVal)) : Except JsError HttpResponse :=
  match dbres with
  | .error e => .error e
  | .ok wasteTypes =>
    if wasteTypes.isEmpty then
      .ok { status := 404, body := ApiResponse.error "No waste types found." 404 [] }
    else
      .ok { status := 200, body := ApiResponse.success (.arr wasteTypes) "Success" [] }

/-- Exported getAllWasteTypes = asyncHandler(handler). -/
def getAllWasteTypes (dbres : Except JsError (List JVal)) (path : String) : HttpResponse :=
  asyncHandler (getAllWasteTypesHandler dbres) path

/-- Handler body of getWasteById: validate the path id (throwing on a bad
identifier), then inspect the collaborator outcome; zero rows yield the
404 envelope, otherwise a success envelope. -/
def getWasteByIdHandler (idParam : JsIn) (dbres : Except JsError (List JVal)) : Except JsError HttpResponse :=
  match ValidationHelpers.validateId idParam "Waste Type" with
  | .error msg => .error { message := msg, status := none, code := none }
  | .ok _wasteTypeId =>
    match dbres with
    | .error e => .error e
    | .ok waste =>
      if waste.isEmpty then
        .ok { status := 404, body := ApiResponse.error "No waste found for the given ID." 404 [] }
      else
        .ok { status := 200, body := ApiResponse.success (.arr waste) "Success" [] }

/-- Exported getWasteById = asyncHandler(handler). -/
def getWasteById (idParam : JsIn) (dbres : Except JsError (List JVal)) (path : String) : HttpResponse :=
  asyncHandler (getWasteByIdHandler idParam dbres) path

/-- Pagination metadata object of the paginated list response. -/
def totalPagesJson (total : Nat) (limit : Option Int) : JVal :=
  match limit with
  | none => .null
  | some l =>
    if 0 < l then .num (((total + l.toNat - 1) / l.toNat : Nat))
    else .null

/-- Pagination block { total, page, limit, totalPages } of getWasteLists;
totalPages is Math.ceil(total / limit).  A NaN limit makes page, limit and
totalPages serialise to null; the validatePagination clamp makes the
non-NaN limit always lie in [1,100], so the 0 < l branch of totalPagesJson
is the only reachable one. -/
def paginationJson (total : Nat) (page limit : Option Int) : JVal :=
  .obj [("total", JVal.num total),
        ("page", numOrNull page),
        ("limit", numOrNull limit),
        ("totalPages", totalPagesJson total limit)]

/-- Handler body of getWasteLists: validate pagination, then wrap the
collaborator outcome (projected rows plus total count, the concurrent
pair) in a success envelope with pagination metadata.  There is no empty
branch: an empty page is still a success. -/
def getWasteListsHandler (pageQ limitQ : JsIn)
    (dbres : Except JsError (List JVal × Nat)) : Except JsError HttpResponse :=
  let pg := ValidationHelpers.validatePagination pageQ limitQ
  match dbres with
  | .error e => .error e
  | .ok (wasteData, totalWasteCount) =>
    .ok { status := 200,
          body := ApiResponse.success
            (.obj [("items", JVal.arr wasteData),
                   ("pagination", paginationJson totalWasteCount pg.page pg.limit)])
            "Success" [] }

/-- Exported getWasteLists = asyncHandler(handler). -/
def getWasteLists (pageQ limitQ : JsIn) (dbres : Except JsError (List JVal × Nat))
    (path : String) : HttpResponse :=
  asyncHandler (getWasteListsHandler pageQ limitQ dbres) path

/-- Handler body of findWasteName: a missing name or one trimming to the
empty string yields the 400 envelope before any collaborator call; then
zero rows yield the 404 envelope, otherwise a success envelope. -/
def findWasteNameHandler (nameQ : Option String)
    (dbres : Except JsError (List JVal)) : Except JsError HttpResponse :=
  match nameQ.map jsTrim with
  | none => .ok { status := 400, body := ApiResponse.error "Waste name is required." 400 [] }
  | some name =>
    if name = "" then
      .ok { status := 400, body := ApiResponse.error "Waste name is required." 400 [] }
    else
      match dbres with
      | .error e => .error e
      | .ok waste =>
        if waste.isEmpty then
          .ok { status := 404, body := ApiResponse.error "No waste found with the given name." 404 [] }
        else
          .ok { status := 200, body := ApiResponse.success (.arr waste) "Success" [] }

/-- Exported findWasteName = asyncHandler(handler). -/
def findWasteName (nameQ : Option String) (dbres : Except JsError (List JVal))
    (path : String) : HttpResponse :=
  asyncHandler (findWasteNameHandler nameQ dbres) path

/-- Entry of the ephemeral cache: the stored value plus its absolute
expiry time in milliseconds. -/
structure CacheEntry where
  value : JVal
  expires : Int

/-- Map.set on the association-list model of the JS Map: replace the entry
of an existing key in place, else append the new key. -/
def mapSet : List (String × CacheEntry) → String → CacheEntry → List (String × CacheEntry)
  | [], k, e => [(k, e)]
  | (k0, e0) :: rest, k, e =>
    if k0 = k then (k, e) :: rest else (k0, e0) :: mapSet rest k e

/-- Map.get on the association-list model. -/
def cacheLookup : List (String × CacheEntry) → String → Option CacheEntry
  | [], _ => none
  | (k0, e0) :: rest, k => if k0 = k then some e0 else cacheLookup rest k

/-- createCache().get(key) at the given current time: the stored value
when the entry exists and has not yet expired, else the null sentinel.
A stored null is indistinguishable from absence. -/
def cacheGet (store : List (String × CacheEntry)) (key : String) (now : Int) : JVal :=
  match cacheLookup store key with
  | some item => if now < item.expires then item.value else JVal.null
  | none => JVal.null

/-- createCache().set(key, value, ttl): stores value with
expires = now + ttl * 1000, overwriting any prior entry for the key. -/
def cacheSet (store : List (String × CacheEntry)) (key : String) (value : JVal)
    (ttl : Int) (now : Int) : List (String × CacheEntry) :=
  mapSet store key { value := value, expires := now + ttl * 1000 }

/-- createCache().clear(key): unconditional removal. -/
def cacheClear (store : List (String × CacheEntry)) (key : String) : List (String × CacheEntry) :=
  store.filter (fun p => p.1 != key)

/-- createCache(): a brand-new empty store. -/
def createCache : List (String × CacheEntry) := []

/-- Request object as the cache decorator sees it. -/
structure ReqInfo where
  path : String

/-- First argument of withCache: either a literal key or a key-computing
function on the request, which may itself throw. -/
inductive KeyArg where
  | literal (s : String)
  | fn (f : ReqInfo → Except JsError String)

/-- Observable outcome of one invocation of the withCache middleware:
either it writes the cached value as the response, or it yields to the
next pipeline stage carrying the set capability bound to the computed key
and ttl, or it forwards an error to the pipeline error channel. -/
inductive CacheOutcome where
  | respond (body : JVal)
  | next (boundKey : String) (boundTtl : Int)
  | nextError (e : JsError)

/-- Discriminator for the short-circuit outcome. -/
def CacheOutcome.isRespond : CacheOutcome → Bool
  | .respond _ => true
  | _ => false

/-- Body of the withCache middleware run against a given store: compute
the key (a non-function argument is used literally; a failing key function
is forwarded to the error channel), look the key up, short-circuit with
the cached value when it is truthy, else attach the set capability and
yield to the next stage. -/
def withCacheRun (store : List (String × CacheEntry)) (keyArg : KeyArg) (ttl : Int)
    (req : ReqInfo) (now : Int) : CacheOutcome :=
  let keyRes : Except JsError String :=
    match keyArg with
    | .literal s => .ok s
    | .fn f => f req
  match keyRes with
  | .error e => .nextError e
  | .ok cacheKey =>
    let cached := cacheGet store cacheKey now
    if jsTruthy cached then .respond cached
    else .next cacheKey ttl

/-- withCache(getCacheKey, ttl) as invoked on a request: it first creates
a brand-new cache store and then runs the middleware body on it. -/
def withCache (keyArg : KeyArg) (ttl : Int) (req : ReqInfo) (now : Int) : CacheOutcome :=
  withCacheRun createCache keyArg ttl req now

/-- Success envelope shape of the spec: exactly success : true, message
and data. -/
def isSuccessEnvelope : JVal → Bool
  | .obj [("success", JVal.bool true), ("message", JVal.str _), ("data", _)] => true
  | _ => false

/-- Error envelope shape as the claim words it: success : false, message,
status and path, all four present. -/
def isErrorEnvelopeWithPath : JVal → Bool
  | .obj [("success", JVal.bool false), ("message", JVal.str _), ("status", JVal.num _), ("path", JVal.str _)] => true
  | _ => false

/-- Error envelope shape as the code produces it: success : false, message
and status, with path present exactly on wrapper-caught failures. -/
def isErrorEnvelope : JVal → Bool
  | .obj [("success", JVal.bool false), ("message", JVal.str _), ("status", JVal.num _)] => true
  | .obj [("success", JVal.bool false), ("message", JVal.str _), ("status", JVal.num _), ("path", JVal.str _)] => true
  | _ => false

/-- Envelope shape exactly as claimed: success shape or the four-field
error shape. -/
def claimEnvelopeShape (v : JVal) : Bool :=
  isSuccessEnvelope v || isErrorEnvelopeWithPath v

/-- Envelope shape as amended: success shape or an error shape whose path
field is optional. -/
def responseShapeOK (v : JVal) : Bool :=
  isSuccessEnvelope v || isErrorEnvelope v

/-- Table of 120 rows for the pagination scenario. -/
def db120 : List Waste :=
  (List.range 120).map
    (fun i => { waste_id := (i : Int), waste_name := "", image := "", description := "",
                waste_type_id := 1 })


/-- Helper: validateId rejects exactly the NaN and non-positive parses. -/
lemma validateId_err (id : JsIn) (en : String)
    (h : parseIntJs id = none ∨ ∃ n : Int, parseIntJs id = some n ∧ n ≤ 0) :
    ValidationHelpers.validateId id en = .error ("Invalid " ++ en ++ " provided") := by
  rcases h with h | ⟨n, hn, hle⟩
  · simp [ValidationHelpers.validateId, h]
  · simp [ValidationHelpers.validateId, hn, hle]

/-- Helper: validateId returns the parse when it is positive. -/
lemma validateId_ok (id : JsIn) (en : String) (n : Int)
    (hn : parseIntJs id = some n) (hpos : 0 < n) :
    ValidationHelpers.validateId id en = .ok n := by
  simp [ValidationHelpers.validateId, hn]
  omega

/-- C1: the claim as stated is false: a non-numeric page input parses to
NaN, Math.max(1, NaN) is NaN, and the returned spec is not a well-formed
pagination spec with integer page at least 1. -/
theorem validatePagination_nonnumeric_counterexample :
    (ValidationHelpers.validatePagination (.str "abc") (.str "10")).page = none
    ∧ paginationWellFormed (ValidationHelpers.validatePagination (.str "abc") (.str "10")) = false :=
  ⟨rfl, rfl⟩

/-- C1 (amended): validatePagination never fails, and whenever the
(defaulted) page and limit inputs parse as integers, including negative,
zero and oversized numeric values, the returned spec has integer page at
least 1, limit in [1,100] and skip = (page - 1) * limit; when either input
parses to NaN, the corresponding field and skip are NaN instead of
clamped integers. -/
theorem validatePagination_spec :
    ∀ (pageQ limitQ : JsIn),
      (∀ pp pl : Int,
          parseIntJs (jsDefault pageQ 1) = some pp →
          parseIntJs (jsDefault limitQ 10) = some pl →
          paginationWellFormed (ValidationHelpers.validatePagination pageQ limitQ) = true)
      ∧ (parseIntJs (jsDefault pageQ 1) = none →
          (ValidationHelpers.validatePagination pageQ limitQ).page = none
          ∧ (ValidationHelpers.validatePagination pageQ limitQ).skip = none)
      ∧ (parseIntJs (jsDefault limitQ 10) = none →
          (ValidationHelpers.validatePagination pageQ limitQ).limit = none
          ∧ (ValidationHelpers.validatePagination pageQ limitQ).skip = none) := by
  intro pageQ limitQ
  refine ⟨?_, ?_, ?_⟩
  · intro pp pl hp hl
    simp only [ValidationHelpers.validatePagination, paginationWellFormed, hp, hl,
      jsMax, jsMin, jsSub, jsMul, Option.map_some']
    simp only [Bool.and_eq_true, decide_eq_true_eq, beq_iff_eq]
    refine ⟨⟨⟨?_, ?_⟩, ?_⟩, trivial⟩ <;> omega
  · intro hp
    cases hl : parseIntJs (jsDefault limitQ 10) <;>
      simp [ValidationHelpers.validatePagination, hp, hl, jsMax, jsMin, jsSub, jsMul]
  · intro hl
    cases hp : parseIntJs (jsDefault pageQ 1) <;>
      simp [ValidationHelpers.validatePagination, hp, hl, jsMax, jsMin, jsSub, jsMul]

/-- C1 witness: a negative page and an oversized limit parse and clamp to
a well-formed spec. -/
theorem validatePagination_spec_witness :
    parseIntJs (jsDefault (.str "-7") 1) = some (-7)
    ∧ parseIntJs (jsDefault (.str "1000") 10) = some 1000
    ∧ paginationWellFormed (ValidationHelpers.validatePagination (.str "-7") (.str "1000")) = true :=
  ⟨by decide, by decide,
   (validatePagination_spec (.str "-7") (.str "1000")).1 (-7) 1000 (by decide) (by decide)⟩

/-- C8: validateId fails, with a message embedding the entity name,
exactly when the input parses to NaN or to a non-positive integer, and
otherwise returns the parsed integer; in particular "abc", -1 and 0 fail
while "42" yields 42. -/
theorem validateId_spec :
    ∀ (id : JsIn) (en : String),
      ((parseIntJs id = none ∨ ∃ n : Int, parseIntJs id = some n ∧ n ≤ 0) →
          ValidationHelpers.validateId id en = .error ("Invalid " ++ en ++ " provided"))
      ∧ (∀ n : Int, parseIntJs id = some n → 0 < n →
          ValidationHelpers.validateId id en = .ok n)
      ∧ (∃ pre suf : String, ("Invalid " ++ en ++ " provided") = pre ++ en ++ suf)
      ∧ ValidationHelpers.validateId (.str "abc") "ID" = .error ("Invalid " ++ "ID" ++ " provided")
      ∧ ValidationHelpers.validateId (.num (-1)) "ID" = .error ("Invalid " ++ "ID" ++ " provided")
      ∧ ValidationHelpers.validateId (.num 0) "ID" = .error ("Invalid " ++ "ID" ++ " provided")
      ∧ ValidationHelpers.validateId (.str "42") "ID" = .ok 42 := by
  intro id en
  exact ⟨validateId_err id en, fun n hn hpos => validateId_ok id en n hn hpos,
    ⟨"Invalid ", " provided", rfl⟩, rfl, rfl, rfl, rfl⟩

/-- C8 witness: a concrete positive identifier is accepted. -/
theorem validateId_spec_witness :
    ValidationHelpers.validateId (.str "7") "Waste Type" = .ok 7 :=
  (validateId_spec (.str "7") "Waste Type").2.1 7 (by decide) (by decide)

/-- C2: the claim as stated is false: a non-numeric path id makes the
wrapped waste-by-type-id handler respond with status 500, not 400,
because validateId throws a plain Error carrying no status field. -/
theorem getWasteById_invalid_id_counterexample :
    (getWasteById (.str "abc") (.ok []) "/api/waste/abc").status = 500
    ∧ (((getWasteById (.str "abc") (.ok []) "/api/waste/abc").status) == (400 : Int)) = false :=
  ⟨rfl, by decide⟩

/-- C2 (amended): for every request to the waste-by-type-id handler whose
path id fails identifier validation, the wrapper writes status 500 with
the validation message and the request path. -/
theorem getWasteById_invalid_id_maps_500 :
    ∀ (idQ : JsIn) (dbres : Except JsError (List JVal)) (path : String),
      (parseIntJs idQ = none ∨ ∃ n : Int, parseIntJs idQ = some n ∧ n ≤ 0) →
      getWasteById idQ dbres path =
        { status := 500,
          body := ApiResponse.error "Invalid Waste Type provided" 500 [("path", JVal.str path)] } := by
  intro idQ dbres path h
  have hv := validateId_err idQ "Waste Type" h
  simp only [getWasteById, getWasteByIdHandler, hv]
  rfl

/-- C2 witness: the concrete non-numeric id "abc" hits the 500 mapping. -/
theorem getWasteById_invalid_id_maps_500_witness :
    parseIntJs (.str "abc") = none
    ∧ getWasteById (.str "abc") (.ok []) "/api/waste/abc" =
        { status := 500,
          body := ApiResponse.error "Invalid Waste Type provided" 500 [("path", JVal.str "/api/waste/abc")] } :=
  ⟨rfl, getWasteById_invalid_id_maps_500 (.str "abc") (.ok []) "/api/waste/abc" (Or.inl rfl)⟩

/-- C5: the claim as stated is false: a failure that declares status 0 is
present but falsy, so the wrapper ignores it; with code P2025 the response
status is 404 while the spec-worded mapping demands the declared 0. -/
theorem asyncHandler_declared_status_counterexample :
    specDeclaredStatus { message := "boom", status := some 0, code := some "P2025" } = 0
    ∧ (asyncHandler (.error { message := "boom", status := some 0, code := some "P2025" }) "/api/waste").status = 404 :=
  ⟨rfl, rfl⟩

/-- C5 (amended): the wrapper maps every failure to a response (nothing
propagates): the status is the declared status when present and truthy
(nonzero); otherwise it is 404 when the failure code is the P2025
record-not-found sentinel and 500 otherwise; the body is the error
envelope built from the failure message with the request path attached. -/
theorem asyncHandler_status_mapping :
    ∀ (e : JsError) (path : String) (s : Int),
      (e.status = some s → (s == 0) = false → (asyncHandler (.error e) path).status = s)
      ∧ ((e.status = none ∨ e.status = some 0) → e.code = some "P2025" →
          (asyncHandler (.error e) path).status = 404)
      ∧ ((e.status = none ∨ e.status = some 0) → (e.code == some "P2025") = false →
          (asyncHandler (.error e) path).status = 500)
      ∧ (asyncHandler (.error e) path).body
          = ApiResponse.error (if e.message = "" then "An unexpected error occurred" else e.message)
              ((asyncHandler (.error e) path).status) [("path", JVal.str path)] := by
  intro e path s
  refine ⟨?_, ?_, ?_, ?_⟩
  · intro hs hs0
    have h0 : ¬(s = 0) := by simpa using hs0
    simp [asyncHandler, hs, h0]
  · intro hst hc
    rcases hst with h | h <;> simp [asyncHandler, h, hc]
  · intro hst hc
    have h0 : ¬(e.code = some "P2025") := by simpa using hc
    rcases hst with h | h <;> simp [asyncHandler, h, h0]
  · cases h : e.status with
    | none => simp [asyncHandler, h]
    | some s0 =>
      by_cases h0 : s0 = 0 <;> simp [asyncHandler, h, h0]

/-- C5 witness: a P2025 failure with no declared status maps to 404. -/
theorem asyncHandler_status_mapping_witness :
    (asyncHandler (.error { message := "boom", status := none, code := some "P2025" }) "/api/waste").status = 404 :=
  (asyncHandler_status_mapping { message := "boom", status := none, code := some "P2025" } "/api/waste" 1).2.1
    (Or.inl rfl) rfl

/-- C4: the claim as stated is false: the empty-result 404 envelope
written inside getAllWasteTypes has no path field, so it matches neither
claimed shape. -/
theorem envelope_shape_counterexample :
    claimEnvelopeShape (getAllWasteTypes (.ok []) "/api/waste/types").body = false
    ∧ (getAllWasteTypes (.ok []) "/api/waste/types").body
        = ApiResponse.error "No waste types found." 404 [] :=
  ⟨rfl, rfl⟩

/-- C4 (amended): for every request and every collaborator outcome, all
four endpoint handlers respond with exactly one envelope: a success
envelope with success, message and data, or an error envelope with
success, message and status, the path field being present exactly when
the wrapper caught the failure. -/
theorem handlers_envelope_shape :
    (∀ (dbres : Except JsError (List JVal)) (path : String),
        responseShapeOK (getAllWasteTypes dbres path).body = true)
    ∧ (∀ (idQ : JsIn) (dbres : Except JsError (List JVal)) (path : String),
        responseShapeOK (getWasteById idQ dbres path).body = true)
    ∧ (∀ (pageQ limitQ : JsIn) (dbres : Except JsError (List JVal × Nat)) (path : String),
        responseShapeOK (getWasteLists pageQ limitQ dbres path).body = true)
    ∧ (∀ (nameQ : Option String) (dbres : Except JsError (List JVal)) (path : String),
        responseShapeOK (findWasteName nameQ dbres path).body = true) := by
  refine ⟨?_, ?_, ?_, ?_⟩
  · intro dbres path
    cases dbres with
    | error e => rfl
    | ok rows => cases rows with
      | nil => rfl
      | cons a l => rfl
  · intro idQ dbres path
    cases hv : ValidationHelpers.validateId idQ "Waste Type" with
    | error m =>
      simp only [getWasteById, getWasteByIdHandler, hv]
      rfl
    | ok n =>
      simp only [getWasteById, getWasteByIdHandler, hv]
      cases dbres with
      | error e => rfl
      | ok rows => cases rows with
        | nil => rfl
        | cons a l => rfl
  · intro pageQ limitQ dbres path
    cases dbres with
    | error e => rfl
    | ok pr =>
      rcases pr with ⟨rows, total⟩
      rfl
  · intro nameQ dbres path
    rcases nameQ with _ | s
    · rfl
    · by_cases h : jsTrim s = ""
      · simp only [findWasteName, findWasteNameHandler, Option.map_some', h]
        rfl
      · simp only [findWasteName, findWasteNameHandler, Option.map_some', if_neg h]
        cases dbres with
        | error e => rfl
        | ok rows => cases rows with
          | nil => rfl
          | cons a l => rfl

/-- C3: every invocation of withCache builds a brand-new empty store, so
the lookup never yields a truthy value and the middleware never takes the
short-circuit branch: it always yields to the next stage or forwards an
error to the pipeline error channel. -/
theorem withCache_never_hits :
    ∀ (keyArg : KeyArg) (ttl : Int) (req : ReqInfo) (now : Int),
      (withCache keyArg ttl req now).isRespond = false
      ∧ ((∃ k t, withCache keyArg ttl req now = .next k t)
         ∨ (∃ e, withCache keyArg ttl req now = .nextError e)) := by
  intro keyArg ttl req now
  cases keyArg with
  | literal s => exact ⟨rfl, Or.inl ⟨s, ttl, rfl⟩⟩
  | fn f =>
    cases hf : f req with
    | error e =>
      refine ⟨?_, Or.inr ⟨e, ?_⟩⟩ <;>
        simp [withCache, withCacheRun, createCache, hf, CacheOutcome.isRespond]
    | ok k =>
      refine ⟨?_, Or.inl ⟨k, ttl, ?_⟩⟩ <;>
        simp [withCache, withCacheRun, createCache, hf, cacheGet, cacheLookup, jsTruthy,
          CacheOutcome.isRespond]

/-- Helper: Map.set makes the key map to exactly the new entry. -/
lemma cacheLookup_mapSet (store : List (String × CacheEntry)) (k : String) (e : CacheEntry) :
    cacheLookup (mapSet store k e) k = some e := by
  induction store with
  | nil => simp [mapSet, cacheLookup]
  | cons hd tl ih =>
    rcases hd with ⟨k0, e0⟩
    by_cases hk : k0 = k
    · simp [mapSet, cacheLookup, hk]
    · simp [mapSet, cacheLookup, hk, ih]

/-- C9: the claim as stated is false: an entry that is present and
unexpired but stores a falsy value (here the number 0) does not
short-circuit the middleware, which yields to the next stage instead of
responding with the stored value. -/
theorem cache_falsy_counterexample :
    cacheLookup [("k", { value := JVal.num 0, expires := 10 })] "k"
        = some { value := JVal.num 0, expires := 10 }
    ∧ ((0 : Int) < 10)
    ∧ (withCacheRun [("k", { value := JVal.num 0, expires := 10 })] (.literal "k") 3600
        { path := "/api/waste" } 0).isRespond = false :=
  ⟨rfl, by norm_num, rfl⟩

/-- C9 (amended): set stores the value under expires = now + ttl * 1000,
overwriting any prior entry for the key; get returns the stored value
strictly before expiry and the null sentinel at or after expiry or when
no entry exists; on a store holding key K unexpired, the middleware
short-circuits with the stored value exactly when that value is truthy,
and after expiry it always reaches the wrapped handler. -/
theorem cache_spec :
    (∀ (store : List (String × CacheEntry)) (k : String) (v : JVal) (ttl now : Int),
        cacheLookup (cacheSet store k v ttl now) k
          = some { value := v, expires := now + ttl * 1000 })
    ∧ (∀ (store : List (String × CacheEntry)) (k : String) (now : Int) (item : CacheEntry),
        cacheLookup store k = some item →
        (now < item.expires → cacheGet store k now = item.value)
        ∧ (item.expires ≤ now → cacheGet store k now = JVal.null))
    ∧ (∀ (store : List (String × CacheEntry)) (k : String) (now : Int),
        cacheLookup store k = none → cacheGet store k now = JVal.null)
    ∧ (∀ (store : List (String × CacheEntry)) (k : String) (item : CacheEntry)
          (ttl : Int) (req : ReqInfo) (now : Int),
        cacheLookup store k = some item → now < item.expires → jsTruthy item.value = true →
        withCacheRun store (.literal k) ttl req now = .respond item.value)
    ∧ (∀ (store : List (String × CacheEntry)) (k : String) (item : CacheEntry)
          (ttl : Int) (req : ReqInfo) (now : Int),
        cacheLookup store k = some item → item.expires ≤ now →
        withCacheRun store (.literal k) ttl req now = .next k ttl) := by
  refine ⟨?_, ?_, ?_, ?_, ?_⟩
  · intro store k v ttl now
    exact cacheLookup_mapSet store k _
  · intro store k now item h
    constructor
    · intro hlt
      simp [cacheGet, h, hlt]
    · intro hle
      simp [cacheGet, h, not_lt.mpr hle]
  · intro store k now h
    simp [cacheGet, h]
  · intro store k item ttl req now h hlt htr
    simp [withCacheRun, cacheGet, h, hlt, htr]
  · intro store k item ttl req now h hle
    simp [withCacheRun, cacheGet, h, not_lt.mpr hle, jsTruthy]

/-- C9 witness: a truthy value stored at expiry 10 is served verbatim at
time 0 and misses at time 10. -/
theorem cache_spec_witness :
    withCacheRun [("k", { value := JVal.str "v", expires := 10 })] (.literal "k") 3600
        { path := "/api" } 0 = .respond (JVal.str "v")
    ∧ withCacheRun [("k", { value := JVal.str "v", expires := 10 })] (.literal "k") 3600
        { path := "/api" } 10 = .next "k" 3600 :=
  ⟨cache_spec.2.2.2.1 [("k", { value := JVal.str "v", expires := 10 })] "k"
      { value := JVal.str "v", expires := 10 } 3600 { path := "/api" } 0 rfl (by norm_num) rfl,
   cache_spec.2.2.2.2 [("k", { value := JVal.str "v", expires := 10 })] "k"
      { value := JVal.str "v", expires := 10 } 3600 { path := "/api" } 10 rfl (by norm_num)⟩

/-- C10: a present, unexpired entry whose stored value is falsy (null, 0,
the empty string or false) is treated as a miss: the middleware yields
control to the wrapped handler. -/
theorem withCache_falsy_treated_as_miss :
    (∀ (store : List (String × CacheEntry)) (k : String) (item : CacheEntry)
        (ttl : Int) (req : ReqInfo) (now : Int),
      cacheLookup store k = some item → now < item.expires → jsTruthy item.value = false →
      withCacheRun store (.literal k) ttl req now = .next k ttl)
    ∧ jsTruthy JVal.null = false
    ∧ jsTruthy (JVal.num 0) = false
    ∧ jsTruthy (JVal.str "") = false
    ∧ jsTruthy (JVal.bool false) = false := by
  refine ⟨?_, rfl, rfl, rfl, rfl⟩
  intro store k item ttl req now h hlt hfal
  simp [withCacheRun, cacheGet, h, hlt, hfal]

/-- C10 witness: a stored 0 that is present and unexpired still yields to
the next stage. -/
theorem withCache_falsy_treated_as_miss_witness :
    withCacheRun [("k", { value := JVal.num 0, expires := 10 })] (.literal "k") 60
        { path := "/api" } 0 = .next "k" 60 :=
  withCache_falsy_treated_as_miss.1 [("k", { value := JVal.num 0, expires := 10 })] "k"
    { value := JVal.num 0, expires := 10 } 60 { path := "/api" } 0 rfl (by norm_num) rfl

/-- Helper: bounds pinning (t + d - 1) / d as the ceiling of t / d. -/
lemma ceilDiv_bounds (t d : Nat) (hd : 1 ≤ d) :
    t ≤ d * ((t + d - 1) / d) ∧ d * ((t + d - 1) / d) < t + d := by
  have hdm := Nat.div_add_mod (t + d - 1) d
  have hmod : (t + d - 1) % d < d := Nat.mod_lt _ (by omega)
  generalize hq : (t + d - 1) / d = q at hdm ⊢
  generalize hr : (t + d - 1) % d = r at hdm hmod
  generalize hQ : d * q = Q at hdm ⊢
  omega

/-- C6: for every paginated-list request whose (defaulted) page and limit
inputs parse as integers, the handler responds with a success envelope
(never a 404) whose items are the collaborator page of at most limit rows
and whose pagination block carries the total count and
totalPages = ceil(total / limit); an empty filtered result set yields an
empty items array with total = 0. -/
theorem getWasteLists_spec :
    ∀ (pageQ limitQ : JsIn) (searchQ : Option String) (db : List Waste) (path : String)
      (pp pl : Int),
      parseIntJs (jsDefault pageQ 1) = some pp →
      parseIntJs (jsDefault limitQ 10) = some pl →
      ∃ p l : Int,
        (ValidationHelpers.validatePagination pageQ limitQ).page = some p
        ∧ (ValidationHelpers.validatePagination pageQ limitQ).limit = some l
        ∧ (ValidationHelpers.validatePagination pageQ limitQ).skip = some ((p - 1) * l)
        ∧ 1 ≤ p ∧ 1 ≤ l ∧ l ≤ 100
        ∧ (prismaWasteFindMany db (wasteListsWhere searchQ) ((p - 1) * l).toNat l.toNat).length ≤ l.toNat
        ∧ getWasteLists pageQ limitQ
            (.ok ((prismaWasteFindMany db (wasteListsWhere searchQ) ((p - 1) * l).toNat l.toNat).map wasteToJVal,
                  prismaWasteCount db (wasteListsWhere searchQ))) path
          = { status := 200,
              body := ApiResponse.success
                (.obj [("items", JVal.arr ((prismaWasteFindMany db (wasteListsWhere searchQ) ((p - 1) * l).toNat l.toNat).map wasteToJVal)),
                       ("pagination", paginationJson (prismaWasteCount db (wasteListsWhere searchQ)) (some p) (some l))])
                "Success" [] }
        ∧ (∃ tp : Int,
            totalPagesJson (prismaWasteCount db (wasteListsWhere searchQ)) (some l) = .num tp
            ∧ (tp - 1) * l < (prismaWasteCount db (wasteListsWhere searchQ) : Int)
            ∧ (prismaWasteCount db (wasteListsWhere searchQ) : Int) ≤ tp * l)
        ∧ (prismaWasteCount db (wasteListsWhere searchQ) = 0 →
            prismaWasteFindMany db (wasteListsWhere searchQ) ((p - 1) * l).toNat l.toNat = []) := by
  intro pageQ limitQ searchQ db path pp pl hp hl
  refine ⟨max 1 pp, min 100 (max 1 pl), ?_, ?_, ?_, ?_, ?_, ?_, ?_, ?_, ?_, ?_⟩
  · simp [ValidationHelpers.validatePagination, hp, jsMax]
  · simp [ValidationHelpers.validatePagination, hl, jsMax, jsMin]
  · simp [ValidationHelpers.validatePagination, hp, hl, jsMax, jsMin, jsSub, jsMul]
  · omega
  · omega
  · omega
  · simp [prismaWasteFindMany, List.length_take]
  · simp [getWasteLists, getWasteListsHandler, asyncHandler,
      ValidationHelpers.validatePagination, hp, hl, jsMax, jsMin, jsSub, jsMul]
  · set L : Int := min 100 (max 1 pl) with hL
    set total := prismaWasteCount db (wasteListsWhere searchQ) with htot
    have hLpos : (0 : Int) < L := by omega
    set N : Nat := L.toNat with hN
    have hd : 1 ≤ N := by omega
    have hcast : (N : Int) = L := by omega
    obtain ⟨hble, hblt⟩ := ceilDiv_bounds total N hd
    have h1c : (total : Int) ≤ (N : Int) * (((total + N - 1) / N : Nat) : Int) := by
      exact_mod_cast hble
    have h2c : (N : Int) * (((total + N - 1) / N : Nat) : Int) < (total : Int) + (N : Int) := by
      exact_mod_cast hblt
    refine ⟨(((total + N - 1) / N : Nat) : Int), ?_, ?_, ?_⟩
    · simp only [totalPagesJson]
      rw [if_pos hLpos, ← hN]
    · have hexp : ((((total + N - 1) / N : Nat) : Int) - 1) * L
          = (N : Int) * (((total + N - 1) / N : Nat) : Int) - L := by
        rw [← hcast]; ring
      rw [hexp]
      linarith [h2c, hcast]
    · have hexp : (((total + N - 1) / N : Nat) : Int) * L
          = (N : Int) * (((total + N - 1) / N : Nat) : Int) := by
        rw [← hcast]; ring
      rw [hexp]
      exact h1c
  · intro h0
    simp only [prismaWasteCount] at h0
    have hnil : db.filter (matchesWhere (wasteListsWhere searchQ)) = [] :=
      List.length_eq_zero.mp h0
    simp [prismaWasteFindMany, hnil, sortByName]

/-- C6 witness: 120 matching rows with page = 2 and limit = 50 give at
most 50 items, total 120 and totalPages 3. -/
theorem getWasteLists_spec_witness :
    parseIntJs (jsDefault (.str "2") 1) = some 2
    ∧ parseIntJs (jsDefault (.str "50") 10) = some 50
    ∧ prismaWasteCount db120 (wasteListsWhere none) = 120
    ∧ (prismaWasteFindMany db120 (wasteListsWhere none) 50 50).length = 50
    ∧ totalPagesJson 120 (some 50) = .num 3
    ∧ (∃ p l : Int,
        (ValidationHelpers.validatePagination (.str "2") (.str "50")).page = some p
        ∧ (ValidationHelpers.validatePagination (.str "2") (.str "50")).limit = some l
        ∧ (ValidationHelpers.validatePagination (.str "2") (.str "50")).skip = some ((p - 1) * l)
        ∧ 1 ≤ p ∧ 1 ≤ l ∧ l ≤ 100
        ∧ (prismaWasteFindMany db120 (wasteListsWhere none) ((p - 1) * l).toNat l.toNat).length ≤ l.toNat
        ∧ getWasteLists (.str "2") (.str "50")
            (.ok ((prismaWasteFindMany db120 (wasteListsWhere none) ((p - 1) * l).toNat l.toNat).map wasteToJVal,
                  prismaWasteCount db120 (wasteListsWhere none))) "/api/waste"
          = { status := 200,
              body := ApiResponse.success
                (.obj [("items", JVal.arr ((prismaWasteFindMany db120 (wasteListsWhere none) ((p - 1) * l).toNat l.toNat).map wasteToJVal)),
                       ("pagination", paginationJson (prismaWasteCount db120 (wasteListsWhere none)) (some p) (some l))])
                "Success" [] }
        ∧ (∃ tp : Int,
            totalPagesJson (prismaWasteCount db120 (wasteListsWhere none)) (some l) = .num tp
            ∧ (tp - 1) * l < (prismaWasteCount db120 (wasteListsWhere none) : Int)
            ∧ (prismaWasteCount db120 (wasteListsWhere none) : Int) ≤ tp * l)
        ∧ (prismaWasteCount db120 (wasteListsWhere none) = 0 →
            prismaWasteFindMany db120 (wasteListsWhere none) ((p - 1) * l).toNat l.toNat = [])) :=
  ⟨rfl, rfl, rfl, rfl, rfl,
   getWasteLists_spec (.str "2") (.str "50") none db120 "/api/waste" 2 50 rfl rfl⟩

/-- C7: a missing name query parameter, or one trimming to the empty
string, yields the 400 envelope with message "Waste name is required."
before any collaborator call; a non-empty trimmed name with zero matching
rows yields the 404 envelope with message "No waste found with the given
name."; otherwise a success envelope wraps the rows, which the take 50
cap bounds by 50. -/
theorem findWasteName_spec :
    ∀ (nameQ : Option String) (db : List Waste) (dbres : Except JsError (List JVal)) (path : String),
      ((nameQ.map jsTrim = none ∨ nameQ.map jsTrim = some "") →
          findWasteName nameQ dbres path
            = { status := 400, body := ApiResponse.error "Waste name is required." 400 [] })
      ∧ (∀ t : String, nameQ.map jsTrim = some t → (t == "") = false →
          (prismaFindWasteByName db t).length ≤ 50
          ∧ (prismaFindWasteByName db t = [] →
              findWasteName nameQ (.ok ((prismaFindWasteByName db t).map wasteToJVal)) path
                = { status := 404,
                    body := ApiResponse.error "No waste found with the given name." 404 [] })
          ∧ ((prismaFindWasteByName db t).isEmpty = false →
              findWasteName nameQ (.ok ((prismaFindWasteByName db t).map wasteToJVal)) path
                = { status := 200,
                    body := ApiResponse.success
                      (JVal.arr ((prismaFindWasteByName db t).map wasteToJVal)) "Success" [] })) := by
  intro nameQ db dbres path
  constructor
  · intro h
    rcases nameQ with _ | s
    · rfl
    · rcases h with h | h
      · simp at h
      · simp only [Option.map_some', Option.some.injEq] at h
        simp [findWasteName, findWasteNameHandler, asyncHandler, h]
  · intro t ht htne
    rcases nameQ with _ | s
    · simp at ht
    · simp only [Option.map_some', Option.some.injEq] at ht
      have hne : ¬(t = "") := by simpa using htne
      refine ⟨?_, ?_, ?_⟩
      · simp [prismaFindWasteByName, List.length_take]
      · intro hempty
        simp [findWasteName, findWasteNameHandler, asyncHandler, ht, hne, hempty]
      · intro hfull
        cases hpr : prismaFindWasteByName db t with
        | nil => rw [hpr] at hfull; simp at hfull
        | cons a rest =>
          simp [findWasteName, findWasteNameHandler, asyncHandler, ht, hne]

/-- C7 witness: a missing name yields the 400 envelope, and a name with
no matching rows yields the 404 envelope. -/
theorem findWasteName_spec_witness :
    findWasteName none (.ok []) "/api/waste/name"
      = { status := 400, body := ApiResponse.error "Waste name is required." 400 [] }
    ∧ findWasteName (some "x") (.ok []) "/api/waste/name"
      = { status := 404, body := ApiResponse.error "No waste found with the given name." 404 [] } :=
  ⟨(findWasteName_spec none [] (.ok []) "/api/waste/name").1 (Or.inl rfl),
   ((findWasteName_spec (some "x") ([] : List Waste) (.ok []) "/api/waste/name").2 "x"
      (by decide) (by decide)).2.1 rfl⟩
